import Mathlib

/-!
Shallow embedding of `src/geodiff.py` (quantifyearth/geodiff).

The core under verification is the `geodiff` function: five metadata checks
between two raster descriptors, a gate deciding whether pixel comparison is
meaningful, and the pixel-diff computation.  External collaborators (the
yirgacheffe `RasterLayer` abstraction, GDAL, `os.path`) are embedded as
explicit data / outcome parameters, as the spec marks them external.
Floats in the source are modelled as exact rationals.
-/

namespace Geodiff

/-- GDAL datatype enumeration codes (from GDAL's `GDALDataType`; GDAL ≥ 3.7
numbering, which includes `GDT_Int8`). -/
def GDT_Unknown : Int := 0

def GDT_Byte : Int := 1

def GDT_UInt16 : Int := 2

def GDT_Int16 : Int := 3

def GDT_UInt32 : Int := 4

def GDT_Int32 : Int := 5

def GDT_Float32 : Int := 6

def GDT_Float64 : Int := 7

def GDT_CInt16 : Int := 8

def GDT_CInt32 : Int := 9

def GDT_CFloat32 : Int := 10

def GDT_CFloat64 : Int := 11

def GDT_UInt64 : Int := 12

def GDT_Int64 : Int := 13

def GDT_Int8 : Int := 14

def GDT_TypeCount : Int := 15

/-- Embedding of the `Result` enum of `src/geodiff.py`. -/
inductive Result where
  | SUCCESS
  | WARNING
  | FAIL
deriving DecidableEq, Repr

/-- Python values appearing as `left_value` / `right_value` of a report entry:
a pixel-scale tuple, a string, an area rectangle, a number, or Python `None`. -/
inductive Value where
  | scale (p : ℚ × ℚ)
  | str (s : String)
  | area (a : ℚ × ℚ × ℚ × ℚ)
  | num (q : ℚ)
  | none
deriving DecidableEq, Repr

/-- Embedding of the `ReportEntry` dataclass of `src/geodiff.py`. -/
structure ReportEntry where
  key : String
  left_value : Value
  right_value : Value
  success : Result
  notes : String
deriving DecidableEq, Repr

/-- Embedding of `gdal_datatype_to_str` from `src/geodiff.py`, branch for
branch in source order (including the duplicated `GDT_Int64` test that the
source has where a `GDT_UInt64` test was evidently intended). -/
def gdal_datatype_to_str (gdt : Int) : String :=
  if GDT_Byte == gdt then "byte"
  else if GDT_Int8 == gdt then "int 8"
  else if GDT_Int16 == gdt then "int 16"
  else if GDT_Int32 == gdt then "int 32"
  else if GDT_Int64 == gdt then "int 64"
  else if GDT_UInt16 == gdt then "unsigned int 16"
  else if GDT_UInt32 == gdt then "unsigned int 32"
  else if GDT_Int64 == gdt then "unsigned int 64"
  else if GDT_Float32 == gdt then "float 32"
  else if GDT_Float64 == gdt then "float 64"
  else if GDT_CFloat32 == gdt then "complex float 32"
  else if GDT_CFloat64 == gdt then "complex float 64"
  else if GDT_CInt16 == gdt then "complex int 16"
  else if GDT_CInt32 == gdt then "complex int 32"
  else if GDT_TypeCount == gdt then "type count"
  else if GDT_Unknown == gdt then "gdal unknown"
  else "actual unknown"

/-- A pixel window: a rectangular sub-region of a raster grid (offset and
size in pixels), as exposed by the yirgacheffe raster-layer collaborator. -/
structure Window where
  xoff : Int
  yoff : Int
  xsize : Nat
  ysize : Nat
deriving DecidableEq, Repr

/-- A raster descriptor, the read-only view of a yirgacheffe `RasterLayer`
that `geodiff` consumes: pixel scale tuple, projection string, GDAL datatype
code, bounding area (left, top, right, bottom), the active read window, and
the pixel grid in absolute grid coordinates.  Floats are modelled as exact
rationals. -/
structure RasterLayer where
  pixel_scale : ℚ × ℚ
  projection : String
  datatype : Int
  area : ℚ × ℚ × ℚ × ℚ
  window : Window
  pixels : Int → Int → ℚ

/-- The pixel of the active window of a layer at window-relative position
`(i, j)`. -/
def readPixel (l : RasterLayer) (i j : Nat) : ℚ :=
  l.pixels (l.window.xoff + i) (l.window.yoff + j)

/-- Whether the two layers, read through their active windows, differ at
window-relative position `(i, j)`: the pointwise `left != right` that
`numpy_apply` evaluates in `src/geodiff.py`. -/
def diffAt (l r : RasterLayer) (i j : Nat) : Bool :=
  decide (readPixel l i j ≠ readPixel r i j)

/-- The number of differing pixels over the shared window: the `and_sum=True`
running count that `diff_calc.save` returns in `src/geodiff.py` (the window
dimensions are the left layer's, as in the percentage computation). -/
def diffCount (l r : RasterLayer) : Nat :=
  ((List.range l.window.ysize).map
    (fun j => (List.range l.window.xsize).countP (fun i => diffAt l r i j))).sum

/-- Modelled from the spec: the coordinate-to-window mapping of the external
raster-layer collaborator ("cropping to a shared window" is excluded from the
core).  It maps an intersection rectangle to the pixel window of a layer
covering it, offsets measured from the layer's top-left corner with the pixel
scale as the ground sample distance per axis. -/
def windowForArea (l : RasterLayer) (a : ℚ × ℚ × ℚ × ℚ) : Window :=
  { xoff := Int.floor ((a.1 - l.area.1) / l.pixel_scale.1)
    yoff := Int.floor ((l.area.2.1 - a.2.1) / l.pixel_scale.2)
    xsize := (Int.floor ((a.2.2.1 - a.1) / l.pixel_scale.1)).toNat
    ysize := (Int.floor ((a.2.1 - a.2.2.2) / l.pixel_scale.2)).toNat }

/-- Embedding of `RasterLayer.set_window_for_intersection`: narrows the active
read window of the layer to the one covering the intersection; every other
field of the descriptor is untouched. -/
def set_window_for_intersection (l : RasterLayer) (a : ℚ × ℚ × ℚ × ℚ) :
    RasterLayer :=
  { l with window := windowForArea l a }

/-- The outcome of calling the external collaborator
`RasterLayer.find_intersection [left, right]`: it returns an intersection
rectangle, raises `ValueError` (the domain-specific "no overlap" signal the
source catches), or raises some other exception.  The collaborator is
external, so `geodiff` is embedded as parametric in this outcome. -/
inductive ExtCall (α : Type) where
  | ok (a : α)
  | valueError
  | otherError (e : String)
deriving DecidableEq, Repr

/-- Embedding of the second component of `os.path.split` (POSIX): the part of
the path after the last slash. -/
def pathBasename (p : String) : String :=
  ((p.splitOn "/").getLast?).getD ""

/-- Embedding of two-argument `os.path.join` (POSIX): the second component if
it is absolute, otherwise the components separated by a slash unless the
first already ends with one or is empty. -/
def pathJoin (a b : String) : String :=
  if b.startsWith "/" then b
  else if a = "" ∨ a.endsWith "/" then a ++ b
  else a ++ "/" ++ b

/-- The difference raster built by `RasterLayer.empty_raster_layer_like` and
filled by `diff_calc.save` in `src/geodiff.py`: georeferencing copied from
the left layer's windowed extent, single band, `nbits=1` boolean storage,
`filename` present exactly when the raster is persisted, and pixel `(i, j)`
holding 1 where the inputs differ and 0 where they agree. -/
structure DiffRaster where
  filename : Option String
  width : Nat
  height : Nat
  pixel_scale : ℚ × ℚ
  projection : String
  datatype : Int
  nbits : Nat
  bands : Nat
  pixel : Nat → Nat → Nat

/-- Embedding of `report["report"]` entries 1–4 of `src/geodiff.py`: the
Pixel Scale, Projection, Data type and Area checks, in source order, with the
source's outcome and notes strings (including the "attepted" typo of the
scale entry). -/
def metadataEntries (left right : RasterLayer) : List ReportEntry :=
  [ { key := "Pixel Scale"
      left_value := Value.scale left.pixel_scale
      right_value := Value.scale right.pixel_scale
      success := if left.pixel_scale = right.pixel_scale then Result.SUCCESS else Result.FAIL
      notes := if left.pixel_scale = right.pixel_scale then "Pass"
               else "Pixel matching will not be attepted" },
    { key := "Projection"
      left_value := Value.str left.projection
      right_value := Value.str right.projection
      success := if left.projection = right.projection then Result.SUCCESS else Result.FAIL
      notes := if left.projection = right.projection then "Pass"
               else "Pixel matching will not be attempted" },
    { key := "Data type"
      left_value := Value.str (gdal_datatype_to_str left.datatype)
      right_value := Value.str (gdal_datatype_to_str right.datatype)
      success := if left.datatype = right.datatype then Result.SUCCESS else Result.WARNING
      notes := if left.datatype = right.datatype then "Pass"
               else "Pixel matching results will be suspect" },
    { key := "Area"
      left_value := Value.area left.area
      right_value := Value.area right.area
      success := if left.area = right.area then Result.SUCCESS else Result.WARNING
      notes := if left.area = right.area then "Pass"
               else "Pixel matching only for overlapping area" } ]

/-- Embedding of the fifth `report["report"]` entry of `src/geodiff.py`: the
Intersection check, `present` being `intersection is not None`. -/
def intersectionEntry (left right : RasterLayer) (present : Bool) : ReportEntry :=
  { key := "Intersection"
    left_value := Value.area left.area
    right_value := Value.area right.area
    success := if present then Result.SUCCESS else Result.FAIL
    notes := if present then "Pass" else "Pixel matching will not be attempted" }

/-- Embedding of the sixth `report["report"]` entry of `src/geodiff.py`: the
pixel-diff entry, `sum` being the differing-pixel count and `leftW` the left
layer after windowing (whose window sizes form the divisor). -/
def pixelDiffEntry (sum : Nat) (leftW : RasterLayer) : ReportEntry :=
  { key := "Pixel diff count"
    left_value := Value.num
      (((sum : ℚ) / ((leftW.window.xsize * leftW.window.ysize : Nat) : ℚ)) * 100)
    right_value := Value.none
    success := if sum = 0 then Result.SUCCESS else Result.FAIL
    notes := if sum = 0 then "Pass" else "Different pixel values found (percentage)" }

/-- Embedding of the `report` dict that `geodiff` builds and returns in
`src/geodiff.py`: exactly the keys `left`, `right` and `report`. -/
structure Report where
  left : String
  right : String
  report : List ReportEntry
deriving DecidableEq, Repr

/-- The full observable outcome of a normally-returning `geodiff` run: the
returned report dict, the final states of the two (possibly re-windowed)
descriptors, and the difference raster when one was built. -/
structure GeodiffResult where
  report : Report
  leftFinal : RasterLayer
  rightFinal : RasterLayer
  diffRaster : Option DiffRaster

/-- Embedding of `geodiff` from `src/geodiff.py`.  The two `RasterLayer`
arguments stand for the layers the external collaborator loads from the two
file paths, and `interRes` for the outcome of the external
`RasterLayer.find_intersection [left, right]` call; the source catches
exactly `ValueError` around that call (setting `intersection = None`), so any
other exception escapes `geodiff`, which the `Except` error case embeds.
Control flow follows lines 62–153 of the source: build the four metadata
entries, append the intersection entry, return early on scale mismatch,
projection mismatch or absent intersection, else re-window both layers,
build the difference raster (persisted under
`os.path.join(save_raster_path, basename of left path)` when a directory was
given), count the differing pixels and append the pixel-diff entry. -/
def geodiff (left_file_path right_file_path : String)
    (save_raster_path : Option String) (left right : RasterLayer)
    (interRes : ExtCall (ℚ × ℚ × ℚ × ℚ)) : Except String GeodiffResult :=
  match interRes with
  | ExtCall.otherError e => Except.error e
  | ExtCall.valueError =>
      Except.ok
        { report :=
            { left := left_file_path
              right := right_file_path
              report := metadataEntries left right ++ [intersectionEntry left right false] }
          leftFinal := left
          rightFinal := right
          diffRaster := Option.none }
  | ExtCall.ok intersection =>
      if (¬ left.pixel_scale = right.pixel_scale) ∨ (¬ left.projection = right.projection) then
        Except.ok
          { report :=
              { left := left_file_path
                right := right_file_path
                report := metadataEntries left right ++ [intersectionEntry left right true] }
            leftFinal := left
            rightFinal := right
            diffRaster := Option.none }
      else
        let leftW := set_window_for_intersection left intersection
        let rightW := set_window_for_intersection right intersection
        let diff_save_name :=
          Option.map (fun d => pathJoin d (pathBasename left_file_path)) save_raster_path
        let sum := diffCount leftW rightW
        Except.ok
          { report :=
              { left := left_file_path
                right := right_file_path
                report := metadataEntries left right ++
                  [intersectionEntry left right true, pixelDiffEntry sum leftW] }
            leftFinal := leftW
            rightFinal := rightW
            diffRaster := Option.some
              { filename := diff_save_name
                width := leftW.window.xsize
                height := leftW.window.ysize
                pixel_scale := leftW.pixel_scale
                projection := leftW.projection
                datatype := GDT_Byte
                nbits := 1
                bands := 1
                pixel := fun i j => if diffAt leftW rightW i j then 1 else 0 } }

/-- The five metadata keys, in the fixed source order. -/
def metadataKeys : List String :=
  ["Pixel Scale", "Projection", "Data type", "Area", "Intersection"]

/-- When the intersection computation raises any exception other than
`ValueError`, `geodiff` lets it escape unchanged. -/
theorem geodiff_otherError_eq (lp rp : String) (sp : Option String)
    (l r : RasterLayer) (e : String) :
    geodiff lp rp sp l r (ExtCall.otherError e) = Except.error e := rfl

/-- When the intersection computation raises `ValueError`, `geodiff` returns
the five-entry report with a FAIL intersection entry and touches nothing. -/
theorem geodiff_valueError_eq (lp rp : String) (sp : Option String)
    (l r : RasterLayer) :
    geodiff lp rp sp l r ExtCall.valueError = Except.ok
      ⟨⟨lp, rp, metadataEntries l r ++ [intersectionEntry l r false]⟩,
        l, r, Option.none⟩ := rfl

/-- When the intersection exists but scale or projection mismatch, `geodiff`
returns the five-entry report with a SUCCESS intersection entry and touches
nothing. -/
theorem geodiff_ok_mismatch_eq (lp rp : String) (sp : Option String)
    (l r : RasterLayer) (a : ℚ × ℚ × ℚ × ℚ)
    (h : ¬ l.pixel_scale = r.pixel_scale ∨ ¬ l.projection = r.projection) :
    geodiff lp rp sp l r (ExtCall.ok a) = Except.ok
      ⟨⟨lp, rp, metadataEntries l r ++ [intersectionEntry l r true]⟩,
        l, r, Option.none⟩ := by
  simp only [geodiff, if_pos h]

/-- When the intersection exists and scale and projection both match,
`geodiff` re-windows both layers, builds the difference raster and returns
the six-entry report. -/
theorem geodiff_ok_proceed_eq (lp rp : String) (sp : Option String)
    (l r : RasterLayer) (a : ℚ × ℚ × ℚ × ℚ)
    (hs : l.pixel_scale = r.pixel_scale) (hpj : l.projection = r.projection) :
    geodiff lp rp sp l r (ExtCall.ok a) = Except.ok
      ⟨⟨lp, rp, metadataEntries l r ++
          [intersectionEntry l r true,
           pixelDiffEntry
             (diffCount (set_window_for_intersection l a) (set_window_for_intersection r a))
             (set_window_for_intersection l a)]⟩,
        set_window_for_intersection l a, set_window_for_intersection r a,
        Option.some
          { filename := Option.map (fun d => pathJoin d (pathBasename lp)) sp
            width := (set_window_for_intersection l a).window.xsize
            height := (set_window_for_intersection l a).window.ysize
            pixel_scale := (set_window_for_intersection l a).pixel_scale
            projection := (set_window_for_intersection l a).projection
            datatype := GDT_Byte
            nbits := 1
            bands := 1
            pixel := fun i j =>
              if diffAt (set_window_for_intersection l a) (set_window_for_intersection r a) i j
              then 1 else 0 }⟩ := by
  have h : ¬ (¬ l.pixel_scale = r.pixel_scale ∨ ¬ l.projection = r.projection) := by
    push_neg
    exact ⟨hs, hpj⟩
  simp only [geodiff, if_neg h]

/-- A row of the window contributes at most the window width to the
differing-pixel count. -/
theorem rowCount_le (l r : RasterLayer) (j : Nat) :
    (List.range l.window.xsize).countP (fun i => diffAt l r i j) ≤ l.window.xsize := by
  simpa using
    (List.countP_le_length (fun i => diffAt l r i j) :
      (List.range l.window.xsize).countP (fun i => diffAt l r i j) ≤
        (List.range l.window.xsize).length)

/-- The differing-pixel count never exceeds the pixel count of the window. -/
theorem diffCount_le (l r : RasterLayer) :
    diffCount l r ≤ l.window.xsize * l.window.ysize := by
  have h1 : diffCount l r ≤
      ((List.range l.window.ysize).map (fun _ => l.window.xsize)).sum := by
    unfold diffCount
    exact List.sum_le_sum (fun j _ => rowCount_le l r j)
  have h2 : ((List.range l.window.ysize).map (fun _ => l.window.xsize)).sum =
      l.window.ysize * l.window.xsize := by
    simp [List.map_const', List.sum_replicate, smul_eq_mul]
  rw [h2] at h1
  exact Nat.mul_comm l.window.ysize l.window.xsize ▸ h1

/-- A concrete descriptor used by the witnesses: 4×4 grid, unit scale, all
pixels zero. -/
def layerA : RasterLayer :=
  { pixel_scale := (1, 1)
    projection := "epsg:4326"
    datatype := GDT_Byte
    area := (0, 4, 4, 0)
    window := ⟨0, 0, 4, 4⟩
    pixels := fun _ _ => 0 }

/-- A second concrete descriptor, identical to `layerA` except that the pixel
at absolute grid position (0, 2) differs. -/
def layerB : RasterLayer :=
  { pixel_scale := (1, 1)
    projection := "epsg:4326"
    datatype := GDT_Byte
    area := (0, 4, 4, 0)
    window := ⟨0, 0, 4, 4⟩
    pixels := fun i j => if i = 0 ∧ j = 2 then 1 else 0 }

/-- A third concrete descriptor: like `layerA` but with float-32 datatype. -/
def layerC : RasterLayer :=
  { pixel_scale := (1, 1)
    projection := "epsg:4326"
    datatype := GDT_Float32
    area := (0, 4, 4, 0)
    window := ⟨0, 0, 4, 4⟩
    pixels := fun _ _ => 0 }

/-- A concrete intersection rectangle: the 2×2 top-left corner of the grids
of `layerA` and `layerB`. -/
def interAB : ℚ × ℚ × ℚ × ℚ := (0, 2, 2, 0)

/-- The window the spec-modelled mapping assigns to `interAB` on any layer
with unit scale and the 4×4 area of the witness layers. -/
theorem windowForArea_unit (l : RasterLayer) (h1 : l.pixel_scale = (1, 1))
    (h2 : l.area = (0, 4, 4, 0)) : windowForArea l interAB = ⟨0, 2, 2, 2⟩ := by
  unfold windowForArea interAB
  rw [h1, h2]
  norm_num
  decide

/-- Evaluation of the differing-pixel count on the witness layers: exactly
one of the four pixels of the 2×2 intersection window differs. -/
theorem diffCount_AB :
    diffCount (set_window_for_intersection layerA interAB)
      (set_window_for_intersection layerB interAB) = 1 := by
  unfold set_window_for_intersection
  rw [windowForArea_unit layerA rfl rfl, windowForArea_unit layerB rfl rfl]
  decide

/-- C1: on every pair of raster descriptors for which geodiff returns a
report, the report carries the five metadata entries Pixel Scale,
Projection, Data type, Area, Intersection, always and in that fixed order,
and carries a sixth pixel-diff entry exactly when the scale tuples are
equal, the projection identifiers are equal, and the intersection
computation returned a rectangle; the condition mentions neither datatype
nor area, so their mismatches never block the sixth entry. -/
theorem geodiff_report_structure (lp rp : String) (sp : Option String)
    (l r : RasterLayer) (ir : ExtCall (ℚ × ℚ × ℚ × ℚ)) (res : GeodiffResult)
    (h : geodiff lp rp sp l r ir = Except.ok res) :
    (res.report.report.map ReportEntry.key = metadataKeys ∨
      res.report.report.map ReportEntry.key = metadataKeys ++ ["Pixel diff count"]) ∧
    (res.report.report.map ReportEntry.key = metadataKeys ++ ["Pixel diff count"] ↔
      (l.pixel_scale = r.pixel_scale ∧ l.projection = r.projection ∧
        ∃ a, ir = ExtCall.ok a)) := by
  cases ir with
  | otherError e =>
      rw [geodiff_otherError_eq] at h
      exact absurd h (by simp)
  | valueError =>
      rw [geodiff_valueError_eq] at h
      injection h with h
      subst h
      refine ⟨Or.inl rfl, ?_, ?_⟩
      · intro hmap
        have hlen := congrArg List.length hmap
        simp [metadataEntries, intersectionEntry, metadataKeys] at hlen
      · rintro ⟨-, -, a, ha⟩
        exact ExtCall.noConfusion ha
  | ok a =>
      by_cases hs : l.pixel_scale = r.pixel_scale
      · by_cases hp : l.projection = r.projection
        · rw [geodiff_ok_proceed_eq lp rp sp l r a hs hp] at h
          injection h with h
          subst h
          exact ⟨Or.inr rfl, iff_of_true rfl ⟨hs, hp, a, rfl⟩⟩
        · rw [geodiff_ok_mismatch_eq lp rp sp l r a (Or.inr hp)] at h
          injection h with h
          subst h
          refine ⟨Or.inl rfl, ?_, ?_⟩
          · intro hmap
            have hlen := congrArg List.length hmap
            simp [metadataEntries, intersectionEntry, metadataKeys] at hlen
          · rintro ⟨-, hp2, -⟩
            exact absurd hp2 hp
      · rw [geodiff_ok_mismatch_eq lp rp sp l r a (Or.inl hs)] at h
        injection h with h
        subst h
        refine ⟨Or.inl rfl, ?_, ?_⟩
        · intro hmap
          have hlen := congrArg List.length hmap
          simp [metadataEntries, intersectionEntry, metadataKeys] at hlen
        · rintro ⟨hs2, -⟩
          exact absurd hs2 hs

/-- Witness for C1: the no-overlap case on the concrete witness layers. -/
theorem geodiff_report_structure_witness :
    ∃ res,
      geodiff "left.tif" "right.tif" Option.none layerA layerB ExtCall.valueError =
        Except.ok res ∧
      ((res.report.report.map ReportEntry.key = metadataKeys ∨
        res.report.report.map ReportEntry.key = metadataKeys ++ ["Pixel diff count"]) ∧
       (res.report.report.map ReportEntry.key = metadataKeys ++ ["Pixel diff count"] ↔
        (layerA.pixel_scale = layerB.pixel_scale ∧ layerA.projection = layerB.projection ∧
          ∃ a, (ExtCall.valueError : ExtCall (ℚ × ℚ × ℚ × ℚ)) = ExtCall.ok a))) :=
  ⟨_, rfl, geodiff_report_structure "left.tif" "right.tif" Option.none layerA layerB
      ExtCall.valueError _ rfl⟩

/-- C2: when the intersection computation signals no overlap (the
`ValueError` the source catches), geodiff still returns a report: five
entries ending in an Intersection entry with outcome FAIL and the standard
blocking note, with no difference raster built; when the computation fails
in any other way, geodiff propagates that error to the caller unchanged
instead of converting it into a report entry. -/
theorem geodiff_no_overlap_vs_hard_error (lp rp : String) (sp : Option String)
    (l r : RasterLayer) :
    (∃ res, geodiff lp rp sp l r ExtCall.valueError = Except.ok res ∧
      res.report.report.length = 5 ∧
      res.report.report.getLast? = some (intersectionEntry l r false) ∧
      (intersectionEntry l r false).success = Result.FAIL ∧
      (intersectionEntry l r false).notes = "Pixel matching will not be attempted" ∧
      res.diffRaster = Option.none) ∧
    (∀ e, geodiff lp rp sp l r (ExtCall.otherError e) = Except.error e) := by
  exact ⟨⟨_, geodiff_valueError_eq lp rp sp l r, rfl, rfl, rfl, rfl, rfl⟩, fun e => rfl⟩

/-- C5: when the datatypes differ but scale and projection match and the
intersection computation returned a rectangle, the Data type entry has
outcome WARNING (not FAIL) and the pipeline still reaches the pixel
comparator: the report has six entries. -/
theorem geodiff_datatype_warning_proceeds (lp rp : String) (sp : Option String)
    (l r : RasterLayer) (a : ℚ × ℚ × ℚ × ℚ)
    (hdt : ¬ l.datatype = r.datatype)
    (hs : l.pixel_scale = r.pixel_scale) (hpj : l.projection = r.projection) :
    ∃ res, geodiff lp rp sp l r (ExtCall.ok a) = Except.ok res ∧
      res.report.report.length = 6 ∧
      res.report.report.get? 2 = some
        { key := "Data type"
          left_value := Value.str (gdal_datatype_to_str l.datatype)
          right_value := Value.str (gdal_datatype_to_str r.datatype)
          success := Result.WARNING
          notes := "Pixel matching results will be suspect" } := by
  refine ⟨_, geodiff_ok_proceed_eq lp rp sp l r a hs hpj, rfl, ?_⟩
  simp [metadataEntries, hdt]

/-- Witness for C5: byte versus float-32 layers agreeing on everything
else. -/
theorem geodiff_datatype_warning_proceeds_witness :
    (¬ layerA.datatype = layerC.datatype ∧ layerA.pixel_scale = layerC.pixel_scale ∧
      layerA.projection = layerC.projection) ∧
    (∃ res, geodiff "left.tif" "right.tif" Option.none layerA layerC (ExtCall.ok interAB) =
        Except.ok res ∧
      res.report.report.length = 6 ∧
      res.report.report.get? 2 = some
        { key := "Data type"
          left_value := Value.str (gdal_datatype_to_str layerA.datatype)
          right_value := Value.str (gdal_datatype_to_str layerC.datatype)
          success := Result.WARNING
          notes := "Pixel matching results will be suspect" }) :=
  ⟨⟨by decide, rfl, rfl⟩,
    geodiff_datatype_warning_proceeds "left.tif" "right.tif" Option.none layerA layerC
      interAB (by decide) rfl rfl⟩

/-- C9: every normal return of geodiff is the report dict: a record whose
`left` and `right` fields are the two input file paths and whose `report`
field is the ordered entry list (its first four entries are the metadata
entries, and it has five or six entries in total) — not a bare entry list
as the source's return annotation `List[ReportEntry]` claims. -/
theorem geodiff_returns_report_dict (lp rp : String) (sp : Option String)
    (l r : RasterLayer) (ir : ExtCall (ℚ × ℚ × ℚ × ℚ)) (res : GeodiffResult)
    (h : geodiff lp rp sp l r ir = Except.ok res) :
    res.report.left = lp ∧ res.report.right = rp ∧
    res.report.report.take 4 = metadataEntries l r ∧
    (res.report.report.length = 5 ∨ res.report.report.length = 6) := by
  cases ir with
  | otherError e =>
      rw [geodiff_otherError_eq] at h
      exact absurd h (by simp)
  | valueError =>
      rw [geodiff_valueError_eq] at h
      injection h with h
      subst h
      exact ⟨rfl, rfl, rfl, Or.inl rfl⟩
  | ok a =>
      by_cases hs : l.pixel_scale = r.pixel_scale
      · by_cases hp : l.projection = r.projection
        · rw [geodiff_ok_proceed_eq lp rp sp l r a hs hp] at h
          injection h with h
          subst h
          exact ⟨rfl, rfl, rfl, Or.inr rfl⟩
        · rw [geodiff_ok_mismatch_eq lp rp sp l r a (Or.inr hp)] at h
          injection h with h
          subst h
          exact ⟨rfl, rfl, rfl, Or.inl rfl⟩
      · rw [geodiff_ok_mismatch_eq lp rp sp l r a (Or.inl hs)] at h
        injection h with h
        subst h
        exact ⟨rfl, rfl, rfl, Or.inl rfl⟩

/-- Witness for C9 at concrete inputs. -/
theorem geodiff_returns_report_dict_witness :
    ∃ res,
      geodiff "left.tif" "right.tif" Option.none layerA layerB ExtCall.valueError =
        Except.ok res ∧
      (res.report.left = "left.tif" ∧ res.report.right = "right.tif" ∧
       res.report.report.take 4 = metadataEntries layerA layerB ∧
       (res.report.report.length = 5 ∨ res.report.report.length = 6)) :=
  ⟨_, rfl, geodiff_returns_report_dict "left.tif" "right.tif" Option.none layerA layerB
      ExtCall.valueError _ rfl⟩

/-- The window the witness layers are narrowed to on the proceed path. -/
theorem window_setA :
    (set_window_for_intersection layerA interAB).window = ⟨0, 2, 2, 2⟩ := by
  unfold set_window_for_intersection
  exact windowForArea_unit layerA rfl rfl

/-- C4: when geodiff reaches the pixel comparator and the two windowed
rasters differ in exactly k of the N pixels of the intersection window, the
sixth report entry has left_value (k / N) * 100 (exact rational division),
right_value the Python None, outcome FAIL when k is nonzero, and outcome
SUCCESS with percentage 0 when the rasters agree on the whole window. -/
theorem geodiff_pixel_diff_entry (lp rp : String) (sp : Option String)
    (l r : RasterLayer) (a : ℚ × ℚ × ℚ × ℚ) (k : Nat)
    (hs : l.pixel_scale = r.pixel_scale) (hpj : l.projection = r.projection)
    (hk : diffCount (set_window_for_intersection l a)
      (set_window_for_intersection r a) = k) :
    ∃ res e, geodiff lp rp sp l r (ExtCall.ok a) = Except.ok res ∧
      res.report.report.get? 5 = some e ∧
      e.left_value = Value.num (((k : ℚ) /
        (((set_window_for_intersection l a).window.xsize *
          (set_window_for_intersection l a).window.ysize : Nat) : ℚ)) * 100) ∧
      e.right_value = Value.none ∧
      (¬ k = 0 → e.success = Result.FAIL) ∧
      (k = 0 → e.success = Result.SUCCESS ∧ e.left_value = Value.num 0) := by
  subst hk
  refine ⟨_, _, geodiff_ok_proceed_eq lp rp sp l r a hs hpj, rfl, rfl, rfl, ?_, ?_⟩
  · intro hk0
    simp [pixelDiffEntry, hk0]
  · intro hk0
    simp [pixelDiffEntry, hk0]

/-- Witness for C4: the witness layers differ in 1 of the 4 window pixels. -/
theorem geodiff_pixel_diff_entry_witness :
    (layerA.pixel_scale = layerB.pixel_scale ∧ layerA.projection = layerB.projection ∧
      diffCount (set_window_for_intersection layerA interAB)
        (set_window_for_intersection layerB interAB) = 1) ∧
    (∃ res e,
      geodiff "left.tif" "right.tif" Option.none layerA layerB (ExtCall.ok interAB) =
        Except.ok res ∧
      res.report.report.get? 5 = some e ∧
      e.left_value = Value.num ((((1 : Nat) : ℚ) /
        (((set_window_for_intersection layerA interAB).window.xsize *
          (set_window_for_intersection layerA interAB).window.ysize : Nat) : ℚ)) * 100) ∧
      e.right_value = Value.none ∧
      (¬ (1 : Nat) = 0 → e.success = Result.FAIL) ∧
      ((1 : Nat) = 0 → e.success = Result.SUCCESS ∧ e.left_value = Value.num 0)) :=
  ⟨⟨rfl, rfl, diffCount_AB⟩,
    geodiff_pixel_diff_entry "left.tif" "right.tif" Option.none layerA layerB interAB 1
      rfl rfl diffCount_AB⟩

/-- C6: when an output directory is supplied and the pixel comparator runs,
the difference raster is persisted under the basename of the left input
path joined to that directory, has the width and height of the left
descriptor's windowed extent, is a single-band raster with 1-bit pixels,
and holds 1 exactly at the differing pixels and 0 at the agreeing ones. -/
theorem geodiff_saves_diff_raster (lp rp dir : String)
    (l r : RasterLayer) (a : ℚ × ℚ × ℚ × ℚ)
    (hs : l.pixel_scale = r.pixel_scale) (hpj : l.projection = r.projection) :
    ∃ res d, geodiff lp rp (Option.some dir) l r (ExtCall.ok a) = Except.ok res ∧
      res.diffRaster = Option.some d ∧
      d.filename = Option.some (pathJoin dir (pathBasename lp)) ∧
      d.width = (set_window_for_intersection l a).window.xsize ∧
      d.height = (set_window_for_intersection l a).window.ysize ∧
      d.bands = 1 ∧ d.nbits = 1 ∧ d.datatype = GDT_Byte ∧
      ∀ i j : Nat,
        (d.pixel i j = 1 ↔
          readPixel (set_window_for_intersection l a) i j ≠
            readPixel (set_window_for_intersection r a) i j) ∧
        (d.pixel i j = 0 ↔
          readPixel (set_window_for_intersection l a) i j =
            readPixel (set_window_for_intersection r a) i j) := by
  refine ⟨_, _, geodiff_ok_proceed_eq lp rp (Option.some dir) l r a hs hpj,
    rfl, rfl, rfl, rfl, rfl, rfl, rfl, ?_⟩
  intro i j
  by_cases hd : readPixel (set_window_for_intersection l a) i j =
      readPixel (set_window_for_intersection r a) i j
  · simp [diffAt, hd]
  · simp [diffAt, hd]

/-- Witness for C6 at concrete inputs and directory. -/
theorem geodiff_saves_diff_raster_witness :
    (layerA.pixel_scale = layerB.pixel_scale ∧ layerA.projection = layerB.projection) ∧
    (∃ res d,
      geodiff "data/left.tif" "right.tif" (Option.some "out") layerA layerB
        (ExtCall.ok interAB) = Except.ok res ∧
      res.diffRaster = Option.some d ∧
      d.filename = Option.some (pathJoin "out" (pathBasename "data/left.tif")) ∧
      d.width = (set_window_for_intersection layerA interAB).window.xsize ∧
      d.height = (set_window_for_intersection layerA interAB).window.ysize ∧
      d.bands = 1 ∧ d.nbits = 1 ∧ d.datatype = GDT_Byte ∧
      ∀ i j : Nat,
        (d.pixel i j = 1 ↔
          readPixel (set_window_for_intersection layerA interAB) i j ≠
            readPixel (set_window_for_intersection layerB interAB) i j) ∧
        (d.pixel i j = 0 ↔
          readPixel (set_window_for_intersection layerA interAB) i j =
            readPixel (set_window_for_intersection layerB interAB) i j)) :=
  ⟨⟨rfl, rfl⟩,
    geodiff_saves_diff_raster "data/left.tif" "right.tif" "out" layerA layerB interAB
      rfl rfl⟩

/-- C7: on every run that reaches the pixel comparator over a window with at
least one pixel, the value stored as the sixth entry's left_value is the
exact rational division of the differing-pixel count by the window's pixel
count, times 100, and it lies in the closed interval from 0 to 100. -/
theorem geodiff_percentage_in_unit_range (lp rp : String) (sp : Option String)
    (l r : RasterLayer) (a : ℚ × ℚ × ℚ × ℚ)
    (hs : l.pixel_scale = r.pixel_scale) (hpj : l.projection = r.projection)
    (hN : 0 < (set_window_for_intersection l a).window.xsize *
      (set_window_for_intersection l a).window.ysize) :
    ∃ res e q, geodiff lp rp sp l r (ExtCall.ok a) = Except.ok res ∧
      res.report.report.get? 5 = some e ∧
      e.left_value = Value.num q ∧
      q = ((diffCount (set_window_for_intersection l a)
          (set_window_for_intersection r a) : ℚ) /
        (((set_window_for_intersection l a).window.xsize *
          (set_window_for_intersection l a).window.ysize : Nat) : ℚ)) * 100 ∧
      0 ≤ q ∧ q ≤ 100 := by
  refine ⟨_, _, _, geodiff_ok_proceed_eq lp rp sp l r a hs hpj, rfl, rfl, rfl, ?_, ?_⟩
  · exact mul_nonneg (div_nonneg (Nat.cast_nonneg _) (Nat.cast_nonneg _)) (by norm_num)
  · have hN2 : (0 : ℚ) <
        (((set_window_for_intersection l a).window.xsize *
          (set_window_for_intersection l a).window.ysize : Nat) : ℚ) := by
      exact_mod_cast hN
    have hle : ((diffCount (set_window_for_intersection l a)
          (set_window_for_intersection r a) : Nat) : ℚ) ≤
        (((set_window_for_intersection l a).window.xsize *
          (set_window_for_intersection l a).window.ysize : Nat) : ℚ) := by
      exact_mod_cast diffCount_le (set_window_for_intersection l a)
        (set_window_for_intersection r a)
    exact (mul_le_mul_of_nonneg_right ((div_le_one hN2).mpr hle)
      (by norm_num)).trans_eq (one_mul 100)

/-- Witness for C7: the witness layers over their 2×2 window. -/
theorem geodiff_percentage_in_unit_range_witness :
    (layerA.pixel_scale = layerB.pixel_scale ∧ layerA.projection = layerB.projection ∧
      0 < (set_window_for_intersection layerA interAB).window.xsize *
        (set_window_for_intersection layerA interAB).window.ysize) ∧
    (∃ res e q,
      geodiff "left.tif" "right.tif" Option.none layerA layerB (ExtCall.ok interAB) =
        Except.ok res ∧
      res.report.report.get? 5 = some e ∧
      e.left_value = Value.num q ∧
      q = ((diffCount (set_window_for_intersection layerA interAB)
          (set_window_for_intersection layerB interAB) : ℚ) /
        (((set_window_for_intersection layerA interAB).window.xsize *
          (set_window_for_intersection layerA interAB).window.ysize : Nat) : ℚ)) * 100 ∧
      0 ≤ q ∧ q ≤ 100) :=
  ⟨⟨rfl, rfl, by rw [window_setA]; decide⟩,
    geodiff_percentage_in_unit_range "left.tif" "right.tif" Option.none layerA layerB
      interAB rfl rfl (by rw [window_setA]; decide)⟩

/-- C8: geodiff never mutates either descriptor except to narrow the active
read window: on every normal return, pixel scale, projection, datatype,
area and the pixel grid of both final descriptors equal the input ones, and
either both windows are unchanged, or the run was on the proceed path
(scales equal, projections equal, intersection returned) and each window
equals exactly the window computed from the intersection. -/
theorem geodiff_frame_conditions (lp rp : String) (sp : Option String)
    (l r : RasterLayer) (ir : ExtCall (ℚ × ℚ × ℚ × ℚ)) (res : GeodiffResult)
    (h : geodiff lp rp sp l r ir = Except.ok res) :
    res.leftFinal.pixel_scale = l.pixel_scale ∧ res.leftFinal.projection = l.projection ∧
    res.leftFinal.datatype = l.datatype ∧ res.leftFinal.area = l.area ∧
    res.leftFinal.pixels = l.pixels ∧
    res.rightFinal.pixel_scale = r.pixel_scale ∧
    res.rightFinal.projection = r.projection ∧
    res.rightFinal.datatype = r.datatype ∧ res.rightFinal.area = r.area ∧
    res.rightFinal.pixels = r.pixels ∧
    ((res.leftFinal.window = l.window ∧ res.rightFinal.window = r.window) ∨
      ∃ a, ir = ExtCall.ok a ∧ l.pixel_scale = r.pixel_scale ∧
        l.projection = r.projection ∧
        res.leftFinal.window = windowForArea l a ∧
        res.rightFinal.window = windowForArea r a) := by
  cases ir with
  | otherError e =>
      rw [geodiff_otherError_eq] at h
      exact absurd h (by simp)
  | valueError =>
      rw [geodiff_valueError_eq] at h
      injection h with h
      subst h
      exact ⟨rfl, rfl, rfl, rfl, rfl, rfl, rfl, rfl, rfl, rfl, Or.inl ⟨rfl, rfl⟩⟩
  | ok a =>
      by_cases hs : l.pixel_scale = r.pixel_scale
      · by_cases hp : l.projection = r.projection
        · rw [geodiff_ok_proceed_eq lp rp sp l r a hs hp] at h
          injection h with h
          subst h
          exact ⟨rfl, rfl, rfl, rfl, rfl, rfl, rfl, rfl, rfl, rfl,
            Or.inr ⟨a, rfl, hs, hp, rfl, rfl⟩⟩
        · rw [geodiff_ok_mismatch_eq lp rp sp l r a (Or.inr hp)] at h
          injection h with h
          subst h
          exact ⟨rfl, rfl, rfl, rfl, rfl, rfl, rfl, rfl, rfl, rfl, Or.inl ⟨rfl, rfl⟩⟩
      · rw [geodiff_ok_mismatch_eq lp rp sp l r a (Or.inl hs)] at h
        injection h with h
        subst h
        exact ⟨rfl, rfl, rfl, rfl, rfl, rfl, rfl, rfl, rfl, rfl, Or.inl ⟨rfl, rfl⟩⟩

/-- Witness for C8: the proceed path on the concrete witness layers. -/
theorem geodiff_frame_conditions_witness :
    ∃ res,
      geodiff "left.tif" "right.tif" Option.none layerA layerB (ExtCall.ok interAB) =
        Except.ok res ∧
      (res.leftFinal.pixel_scale = layerA.pixel_scale ∧
       res.leftFinal.projection = layerA.projection ∧
       res.leftFinal.datatype = layerA.datatype ∧ res.leftFinal.area = layerA.area ∧
       res.leftFinal.pixels = layerA.pixels ∧
       res.rightFinal.pixel_scale = layerB.pixel_scale ∧
       res.rightFinal.projection = layerB.projection ∧
       res.rightFinal.datatype = layerB.datatype ∧ res.rightFinal.area = layerB.area ∧
       res.rightFinal.pixels = layerB.pixels ∧
       ((res.leftFinal.window = layerA.window ∧ res.rightFinal.window = layerB.window) ∨
         ∃ a, (ExtCall.ok interAB : ExtCall (ℚ × ℚ × ℚ × ℚ)) = ExtCall.ok a ∧
           layerA.pixel_scale = layerB.pixel_scale ∧
           layerA.projection = layerB.projection ∧
           res.leftFinal.window = windowForArea layerA a ∧
           res.rightFinal.window = windowForArea layerB a)) :=
  ⟨_, rfl, geodiff_frame_conditions "left.tif" "right.tif" Option.none layerA layerB
      (ExtCall.ok interAB) _ rfl⟩

/-- C10: the pixel-diff percentage divides by the product of the window
sizes of the left windowed layer with no zero guard, and under the
precondition that the intersection window has positive width and height
that divisor is a nonzero rational, so the division is by a nonzero
denominator. -/
theorem geodiff_pixel_divisor_nonzero (lp rp : String) (sp : Option String)
    (l r : RasterLayer) (a : ℚ × ℚ × ℚ × ℚ)
    (hs : l.pixel_scale = r.pixel_scale) (hpj : l.projection = r.projection)
    (hx : 0 < (set_window_for_intersection l a).window.xsize)
    (hy : 0 < (set_window_for_intersection l a).window.ysize) :
    (((set_window_for_intersection l a).window.xsize *
      (set_window_for_intersection l a).window.ysize : Nat) : ℚ) ≠ 0 ∧
    ∃ res e, geodiff lp rp sp l r (ExtCall.ok a) = Except.ok res ∧
      res.report.report.get? 5 = some e ∧
      e.left_value = Value.num (((diffCount (set_window_for_intersection l a)
          (set_window_for_intersection r a) : ℚ) /
        (((set_window_for_intersection l a).window.xsize *
          (set_window_for_intersection l a).window.ysize : Nat) : ℚ)) * 100) := by
  refine ⟨?_, _, _, geodiff_ok_proceed_eq lp rp sp l r a hs hpj, rfl, rfl⟩
  exact_mod_cast (Nat.mul_pos hx hy).ne'

/-- Witness for C10 on the concrete witness layers. -/
theorem geodiff_pixel_divisor_nonzero_witness :
    (layerA.pixel_scale = layerB.pixel_scale ∧ layerA.projection = layerB.projection ∧
      0 < (set_window_for_intersection layerA interAB).window.xsize ∧
      0 < (set_window_for_intersection layerA interAB).window.ysize) ∧
    ((((set_window_for_intersection layerA interAB).window.xsize *
        (set_window_for_intersection layerA interAB).window.ysize : Nat) : ℚ) ≠ 0 ∧
      ∃ res e,
        geodiff "left.tif" "right.tif" Option.none layerA layerB (ExtCall.ok interAB) =
          Except.ok res ∧
        res.report.report.get? 5 = some e ∧
        e.left_value = Value.num (((diffCount (set_window_for_intersection layerA interAB)
            (set_window_for_intersection layerB interAB) : ℚ) /
          (((set_window_for_intersection layerA interAB).window.xsize *
            (set_window_for_intersection layerA interAB).window.ysize : Nat) : ℚ)) * 100)) :=
  ⟨⟨rfl, rfl, by rw [window_setA]; decide, by rw [window_setA]; decide⟩,
    geodiff_pixel_divisor_nonzero "left.tif" "right.tif" Option.none layerA layerB interAB
      rfl rfl (by rw [window_setA]; decide) (by rw [window_setA]; decide)⟩

end Geodiff

/-- C3: every recognized GDAL storage-type code is mapped to its documented
fixed label and every unrecognized code to a fallback label — refuted at
`GDT_UInt64`: the source tests `GDT_Int64` twice (its second test was meant to
be `GDT_UInt64`), so the unsigned 64-bit code falls through every branch to
the fallback `"actual unknown"` instead of `"unsigned int 64"`, while all the
other recognized codes do get their documented labels.  This matches the
defect the spec's design notes record for the label mapping. -/
theorem Geodiff.gdal_datatype_to_str_uint64_falls_through :
    Geodiff.gdal_datatype_to_str Geodiff.GDT_UInt64 = "actual unknown" ∧
    Geodiff.GDT_UInt64 ≠ Geodiff.GDT_Int64 ∧
    Geodiff.gdal_datatype_to_str Geodiff.GDT_Byte = "byte" ∧
    Geodiff.gdal_datatype_to_str Geodiff.GDT_Int8 = "int 8" ∧
    Geodiff.gdal_datatype_to_str Geodiff.GDT_Int16 = "int 16" ∧
    Geodiff.gdal_datatype_to_str Geodiff.GDT_Int32 = "int 32" ∧
    Geodiff.gdal_datatype_to_str Geodiff.GDT_Int64 = "int 64" ∧
    Geodiff.gdal_datatype_to_str Geodiff.GDT_UInt16 = "unsigned int 16" ∧
    Geodiff.gdal_datatype_to_str Geodiff.GDT_UInt32 = "unsigned int 32" ∧
    Geodiff.gdal_datatype_to_str Geodiff.GDT_Float32 = "float 32" ∧
    Geodiff.gdal_datatype_to_str Geodiff.GDT_Float64 = "float 64" ∧
    Geodiff.gdal_datatype_to_str Geodiff.GDT_CFloat32 = "complex float 32" ∧
    Geodiff.gdal_datatype_to_str Geodiff.GDT_CFloat64 = "complex float 64" ∧
    Geodiff.gdal_datatype_to_str Geodiff.GDT_CInt16 = "complex int 16" ∧
    Geodiff.gdal_datatype_to_str Geodiff.GDT_CInt32 = "complex int 32" ∧
    Geodiff.gdal_datatype_to_str (-7) = "actual unknown" ∧
    Geodiff.gdal_datatype_to_str 99 = "actual unknown" := by
  decide
